import Mathlib

/-!
# Verification of `src/process_geojson.py` (UrbanRay3D)

A shallow embedding of the GeoJSON → CSV building-point extractor.

Modelling choices:
* JSON values (the output of Python's `json.load`) are the inductive `Json`
  below; Python dicts decoded from JSON objects are association lists with
  distinct keys (later duplicate keys are already collapsed by `json.load`).
* Python numbers (and the results of `float(...)`) are modelled as `ℚ`.
* Fallible Python evaluation is `Except PyErr`; the `PyErr` constructors
  mirror the exception classes the interpreter would raise.
* Plotting (`matplotlib`) is an external side effect; the run records which
  renderer was invoked as a `PlotResult` tag, and the environmental failure
  of the 3-D renderer is a boolean parameter of the run.
-/

set_option autoImplicit false

namespace UrbanRay3D

/-- A JSON value, as produced by Python's `json.load`. -/
inductive Json where
  | null
  | bool (b : Bool)
  | num (q : ℚ)
  | str (s : String)
  | arr (elems : List Json)
  | obj (fields : List (String × Json))
  deriving Repr

/-- Python exception classes raised by the operations the script uses. -/
inductive PyErr where
  | typeError
  | valueError
  | indexError
  | keyError
  | attributeError
  deriving Repr, DecidableEq

/-- `isinstance(x, list)`. -/
def Json.isArr : Json → Bool
  | .arr _ => true
  | _ => false

/-- Python truthiness of a JSON-decoded value (`if x:`). -/
def pyTruthy : Json → Bool
  | .null => false
  | .bool b => b
  | .num q => q ≠ 0
  | .str s => s ≠ ""
  | .arr xs => !xs.isEmpty
  | .obj kvs => !kvs.isEmpty

/-- `len(x)`: lists, strings and dicts are sized, everything else raises
`TypeError`. -/
def pyLen : Json → Except PyErr Nat
  | .str s => .ok s.length
  | .arr xs => .ok xs.length
  | .obj kvs => .ok kvs.length
  | _ => .error .typeError

/-- `x[i]` for a non-negative integer `i`: list and string indexing with an
`IndexError` out of range; dicts raise `KeyError` (an integer is not one of
their string keys); everything else raises `TypeError`. -/
def pyGetIdx : Json → Nat → Except PyErr Json
  | .arr xs, i =>
    match xs[i]? with
    | some v => .ok v
    | none => .error .indexError
  | .str s, i =>
    match s.toList[i]? with
    | some c => .ok (.str (String.mk [c]))
    | none => .error .indexError
  | .obj _, _ => .error .keyError
  | _, _ => .error .typeError

/-- `x[k]` for a string key `k`: dict lookup with `KeyError` on a missing
key; lists and strings raise `TypeError` (string index), everything else
`TypeError`. -/
def pyGetKey : Json → String → Except PyErr Json
  | .obj kvs, k =>
    match kvs.lookup k with
    | some v => .ok v
    | none => .error .keyError
  | _, _ => .error .typeError

/-- `x.get(k, default)`: a dict method; on anything that is not a dict the
attribute access raises `AttributeError`. -/
def pyGet (j : Json) (k : String) (dflt : Json) : Except PyErr Json :=
  match j with
  | .obj kvs => .ok ((kvs.lookup k).getD dflt)
  | _ => .error .attributeError

/-- `k in x` for a string `k`: key test on dicts, substring test on strings,
membership (by `==`, so only equal strings match) on lists; everything else
raises `TypeError`. -/
def pyContains (j : Json) (k : String) : Except PyErr Bool :=
  match j with
  | .obj kvs => .ok (kvs.lookup k).isSome
  | .str s => .ok ((s.splitOn k).length > 1 || k = "")
  | .arr xs => .ok (xs.any fun x => match x with | .str s => s = k | _ => false)
  | _ => .error .typeError

/-- Python `==` against a string literal: only an equal string compares
equal; values of any other type are simply unequal (no exception). -/
def jsonEqStr (j : Json) (s : String) : Bool :=
  match j with
  | .str t => t = s
  | _ => false

/-- `iter(x)`: lists yield their elements, strings their one-character
substrings, dicts their keys; everything else raises `TypeError`. -/
def pyIter : Json → Except PyErr (List Json)
  | .arr xs => .ok xs
  | .str s => .ok (s.toList.map fun c => .str (String.mk [c]))
  | .obj kvs => .ok (kvs.map fun kv => .str kv.1)
  | _ => .error .typeError

/-- The numeric value of a decimal digit character. -/
def digitVal (c : Char) : Nat := c.toNat - 48

/-- The natural number denoted by a list of decimal digits. -/
def natOfDigits (ds : List Char) : Nat :=
  ds.foldl (fun n c => 10 * n + digitVal c) 0

/-- An unsigned decimal literal accepted by Python's `float`: digits with an
optional decimal point, at least one digit overall (`"7"`, `"7."`, `".5"`,
`"7.25"`). Exotic forms (exponents, `inf`, `nan`, underscores, surrounding
whitespace) are outside the model; the claims do not depend on them. -/
def parseUnsignedRat : List Char → Option ℚ
  | ds =>
    match ds.splitOn '.' with
    | [ip] =>
      if ip.all Char.isDigit ∧ ip ≠ [] then some (natOfDigits ip) else none
    | [ip, fp] =>
      if (ip.all Char.isDigit ∧ fp.all Char.isDigit) ∧ (ip ≠ [] ∨ fp ≠ []) then
        some ((natOfDigits ip : ℚ) + (natOfDigits fp : ℚ) / (10 : ℚ) ^ fp.length)
      else none
    | _ => none

/-- The decimal literal denoted by a string, with an optional sign. -/
def strToRat? (s : String) : Option ℚ :=
  match s.toList with
  | '+' :: rest => parseUnsignedRat rest
  | '-' :: rest => (parseUnsignedRat rest).map Neg.neg
  | cs => parseUnsignedRat cs

/-- `float(x)` on a JSON-decoded value: numbers and booleans convert, a
string parses as a decimal literal or raises `ValueError`, and `None`,
lists and dicts raise `TypeError`. -/
def pyFloat : Json → Except PyErr ℚ
  | .num q => .ok q
  | .bool b => .ok (if b then 1 else 0)
  | .str s =>
    match strToRat? s with
    | some q => .ok q
    | none => .error .valueError
  | _ => .error .typeError

/-- The body of the `try: return float(properties[key]) except (ValueError,
TypeError): pass` blocks of `get_building_height`: `some q` when the
conversion succeeds, `none` when a caught exception falls through, and a
propagated error otherwise. -/
def tryFloatKey (properties : Json) (key : String) : Except PyErr (Option ℚ) :=
  match (do pyFloat (← pyGetKey properties key) : Except PyErr ℚ) with
  | .ok q => .ok (some q)
  | .error .valueError => .ok none
  | .error .typeError => .ok none
  | .error e => .error e

/-- `get_building_height(properties)` (src/process_geojson.py:23-46):
`height` if convertible, else `building:levels * 3.0` if convertible, else
`3.0`. -/
def get_building_height (properties : Json) : Except PyErr ℚ := do
  if ← pyContains properties "height" then
    match ← tryFloatKey properties "height" with
    | some h => return h
    | none => pure ()
  if ← pyContains properties "building:levels" then
    match ← tryFloatKey properties "building:levels" with
    | some levels => return levels * 3
    | none => pure ()
  return 3

/-- A building point `(lon, lat, height)` as appended by
`process_coordinates`: `lon` and `lat` are whatever `point[0]` and
`point[1]` evaluate to, `height` the resolved height. A Python tuple,
hence immutable. -/
abbrev BPoint : Type := Json × Json × ℚ

/-- The body of the inner `for point in exterior_ring` loop
(src/process_geojson.py:59-63 and 69-73): `if len(point) >= 2:` then
append `(point[0], point[1], height)`. -/
def emitPoint (height : ℚ) (acc : List BPoint) (point : Json) :
    Except PyErr (List BPoint) := do
  let n ← pyLen point
  if n ≥ 2 then
    let lon ← pyGetIdx point 0
    let lat ← pyGetIdx point 1
    return acc ++ [(lon, lat, height)]
  else
    return acc

/-- Iterate a ring's points through `emitPoint`. -/
def emitRing (ring : Json) (height : ℚ) (acc : List BPoint) :
    Except PyErr (List BPoint) := do
  (← pyIter ring).foldlM (emitPoint height) acc

/-- The dispatch condition of `process_coordinates`
(src/process_geojson.py:56): `len(coords) > 0 and
isinstance(coords[0][0], list) and not isinstance(coords[0][0][0], list)`,
with Python's left-to-right short-circuit evaluation and its exceptions. -/
def dispatchCond (coords : Json) : Except PyErr Bool := do
  if (← pyLen coords) > 0 then
    let c00 ← pyGetIdx (← pyGetIdx coords 0) 0
    if c00.isArr then
      return !(← pyGetIdx c00 0).isArr
    else
      return false
  else
    return false

/-- `process_coordinates(coords, height)` (src/process_geojson.py:48-75). -/
def process_coordinates (coords : Json) (height : ℚ) :
    Except PyErr (List BPoint) := do
  if ← dispatchCond coords then
    emitRing (← pyGetIdx coords 0) height []
  else
    (← pyIter coords).foldlM (fun acc polygon => do
      if pyTruthy polygon then
        if (← pyLen polygon) > 0 then
          emitRing (← pyGetIdx polygon 0) height acc
        else
          return acc
      else
        return acc) []

/-- The body of the `for feature in geojson_data.get('features', [])` loop
of `process_geojson` (src/process_geojson.py:88-102): the building points
one feature contributes. -/
def feature_points (feature : Json) : Except PyErr (List BPoint) := do
  let geometry ← pyGet feature "geometry" (.obj [])
  let properties ← pyGet feature "properties" (.obj [])
  if pyTruthy geometry then
    let ty ← pyGet geometry "type" .null
    if jsonEqStr ty "Polygon" || jsonEqStr ty "MultiPolygon" then
      let height ← get_building_height properties
      if jsonEqStr ty "Polygon" then
        process_coordinates (← pyGet geometry "coordinates" (.arr [])) height
      else
        (← pyIter (← pyGet geometry "coordinates" (.arr []))).foldlM
          (fun acc pc => do
            return acc ++ (← process_coordinates (.arr [pc]) height)) []
    else
      return []
  else
    return []

/-- The point-collection phase of `process_geojson`
(src/process_geojson.py:81-102): the full `building_points` list. -/
def process_geojson_points (doc : Json) : Except PyErr (List BPoint) := do
  (← pyIter (← pyGet doc "features" (.arr []))).foldlM
    (fun acc f => do return acc ++ (← feature_points f)) []

/-- A row of the output CSV file: the single header row or a data row
holding one building point (src/process_geojson.py:104-110). -/
inductive CsvRow where
  | header
  | data (p : BPoint)

/-- Whether a CSV row is a data row (not the header). -/
def CsvRow.isData : CsvRow → Bool
  | .header => false
  | .data _ => true

/-- The sequence of rows `process_geojson` writes: the header
`['longitude', 'latitude', 'height_meters']` followed by one data row per
collected point. -/
def write_csv (points : List BPoint) : List CsvRow :=
  .header :: points.map .data

/-- Which renderer a run of `process_geojson` invoked for the preview
image. -/
inductive PlotResult where
  | noPlot
  | plot3d
  | plot2d
  deriving Repr, DecidableEq

/-- The visualization step of `process_geojson`
(src/process_geojson.py:112-121): only attempted for a non-empty point set
and a truthy image path; a 3-D attempt whose failure (`plot3dFails`, an
environmental fact about `matplotlib`) is caught falls back to the 2-D
renderer. -/
def plotting_step (points : List BPoint) (imgGiven has3d plot3dFails : Bool) :
    PlotResult :=
  if !points.isEmpty && imgGiven then
    if has3d then
      if plot3dFails then .plot2d else .plot3d
    else .plot2d
  else .noPlot

/-- `process_geojson` after `json.load` (src/process_geojson.py:77-123):
the CSV rows written, the renderer used, and the returned
`len(building_points)`. -/
def process_geojson (doc : Json) (imgGiven has3d plot3dFails : Bool) :
    Except PyErr (List CsvRow × PlotResult × Nat) := do
  let pts ← process_geojson_points doc
  return (write_csv pts, plotting_step pts imgGiven has3d plot3dFails, pts.length)

/-! ## Specification-side descriptions of the outputs -/

/-- The row a single ring entry contributes: the first two coordinates of a
list of length at least two, tagged with the height; `none` for a shorter
list or a non-list. -/
def posRow (height : ℚ) : Json → Option BPoint
  | .arr (c0 :: c1 :: _) => some (c0, c1, height)
  | _ => none

/-- A well-formed GeoJSON coordinate position: a list with at least two
entries whose first entry is not itself a list (in real data, a number). -/
def IsPosition (p : Json) : Prop :=
  ∃ c0 c1 rest, p = Json.arr (c0 :: c1 :: rest) ∧ c0.isArr = false

/-- The length of a polygon's exterior (first) ring, `0` when the shape is
not a polygon coordinate array. -/
def exteriorSize (poly : Json) : Nat :=
  match poly with
  | .arr (.arr pts :: _) => pts.length
  | _ => 0

/-- The points of a polygon's exterior (first) ring, `[]` when the shape is
not a polygon coordinate array. -/
def exteriorPts (poly : Json) : List Json :=
  match poly with
  | .arr (.arr pts :: _) => pts
  | _ => []

/-- The height-defaulting precedence exactly as the specification words it:
an attribute that is present and numeric (i.e. `float` conversion succeeds)
wins; a present but non-numeric value falls through like a missing one;
`height` beats `building:levels * 3.0` beats the fixed default `3.0`. -/
def heightSpec (props : List (String × Json)) : ℚ :=
  match (props.lookup "height").bind (fun v => (pyFloat v).toOption) with
  | some q => q
  | none =>
    match (props.lookup "building:levels").bind (fun v => (pyFloat v).toOption) with
    | some q => q * 3
    | none => 3

/-! ## Reduction lemmas -/

@[simp] theorem ok_bind {α β : Type} (a : α) (f : α → Except PyErr β) :
    (Except.ok a : Except PyErr α) >>= f = f a := rfl

@[simp] theorem error_bind {α β : Type} (e : PyErr) (f : α → Except PyErr β) :
    (Except.error e : Except PyErr α) >>= f = Except.error e := rfl

@[simp] theorem pure_eq_ok {α : Type} (a : α) :
    (pure a : Except PyErr α) = Except.ok a := rfl

@[simp] theorem bind_ok_eta {α : Type} (x : Except PyErr α) :
    x >>= Except.ok = x := by cases x <;> rfl

@[simp] theorem isArr_arr (xs : List Json) : (Json.arr xs).isArr = true := rfl

theorem emitPoint_arr (h : ℚ) (acc : List BPoint) (cs : List Json) :
    emitPoint h acc (.arr cs) = .ok (acc ++ (posRow h (.arr cs)).toList) := by
  match cs with
  | [] => simp [emitPoint, pyLen, posRow]
  | [c] => simp [emitPoint, pyLen, posRow]
  | c0 :: c1 :: rest =>
    simp [emitPoint, pyLen, pyGetIdx, posRow]

theorem emitRing_arr (ring : List Json) (h : ℚ) (acc : List BPoint)
    (hall : ∀ p ∈ ring, p.isArr = true) :
    emitRing (.arr ring) h acc = .ok (acc ++ ring.filterMap (posRow h)) := by
  induction ring generalizing acc with
  | nil => simp [emitRing, pyIter]
  | cons p ps ih =>
    have hp : p.isArr = true := hall p (by simp)
    obtain ⟨cs, rfl⟩ : ∃ cs, p = Json.arr cs := by
      cases p <;> simp [Json.isArr] at hp ⊢
    have hrest : ∀ q ∈ ps, q.isArr = true := fun q hq => hall q (by simp [hq])
    have step := ih (acc ++ (posRow h (.arr cs)).toList) hrest
    simp only [emitRing, pyIter, ok_bind, List.foldlM] at step ⊢
    rw [emitPoint_arr]
    simp only [ok_bind] at step ⊢
    rw [step]
    cases hcs : posRow h (.arr cs) <;> simp [hcs]

theorem dispatchCond_polygon (c : Json) (cs : List Json) (ps holes : List Json)
    (hc : c.isArr = false) :
    dispatchCond (.arr (Json.arr (Json.arr (c :: cs) :: ps) :: holes)) = .ok true := by
  simp [dispatchCond, pyLen, pyGetIdx, hc]

theorem dispatchCond_multiSingle (q : Json) (qs rings : List Json)
    (hq : q.isArr = true) :
    dispatchCond (.arr [Json.arr (Json.arr (q :: qs) :: rings)]) = .ok false := by
  simp [dispatchCond, pyLen, pyGetIdx, hq]

theorem process_coordinates_polygon (c : Json) (cs : List Json) (ps holes : List Json)
    (h : ℚ) (hc : c.isArr = false)
    (hall : ∀ p ∈ Json.arr (c :: cs) :: ps, p.isArr = true) :
    process_coordinates (.arr (Json.arr (Json.arr (c :: cs) :: ps) :: holes)) h =
      .ok ((Json.arr (c :: cs) :: ps).filterMap (posRow h)) := by
  simp only [process_coordinates, dispatchCond_polygon c cs ps holes hc, ok_bind,
    if_true, pyGetIdx]
  simpa using emitRing_arr (Json.arr (c :: cs) :: ps) h [] hall

theorem process_coordinates_multiSingle (q : Json) (qs rings : List Json) (h : ℚ)
    (hall : ∀ p ∈ q :: qs, p.isArr = true) :
    process_coordinates (.arr [Json.arr (Json.arr (q :: qs) :: rings)]) h =
      .ok ((q :: qs).filterMap (posRow h)) := by
  have hq : q.isArr = true := hall q (by simp)
  simp only [process_coordinates, dispatchCond_multiSingle q qs rings hq, ok_bind,
    Bool.false_eq_true, if_false, pyIter, List.foldlM, pyTruthy, pyLen, pyGetIdx,
    List.isEmpty_cons, Bool.not_false, if_true]
  simp only [List.length_cons, Nat.zero_lt_succ, if_true, ok_bind]
  simpa using emitRing_arr (q :: qs) h [] hall

theorem lookup_ne_nil {kvs : List (String × Json)} {k : String} {v : Json}
    (h : kvs.lookup k = some v) : kvs.isEmpty = false := by
  cases kvs with
  | nil => simp [List.lookup] at h
  | cons _ _ => rfl

/-- The accumulate-append loops of `process_geojson`: when every element
maps to an `ok` list, the fold collects the concatenation in order. -/
theorem foldlM_append_ok {f : Json → Except PyErr (List BPoint)} :
    ∀ (xs : List Json) (ls : List (List BPoint)) (acc : List BPoint),
    List.Forall₂ (fun x l => f x = .ok l) xs ls →
    (xs.foldlM (fun acc x => do return acc ++ (← f x)) acc) = .ok (acc ++ ls.flatten)
  | [], [], acc, _ => by simp [List.foldlM]
  | [], _ :: _, _, hall => nomatch hall
  | _ :: _, [], _, hall => nomatch hall
  | x :: xs, l :: ls, acc, hall => by
    have hx : f x = .ok l := (List.forall₂_cons.mp hall).1
    have hrest := (List.forall₂_cons.mp hall).2
    have step := foldlM_append_ok xs ls (acc ++ l) hrest
    simp only [List.foldlM_cons, hx, ok_bind, pure_eq_ok]
    simp only [pure_eq_ok] at step
    rw [step]
    simp [List.append_assoc]

theorem feature_points_polygon (fkvs gkvs : List (String × Json))
    (properties coords : Json) (h : ℚ)
    (hg : fkvs.lookup "geometry" = some (Json.obj gkvs))
    (hp : (fkvs.lookup "properties").getD (Json.obj []) = properties)
    (hty : gkvs.lookup "type" = some (Json.str "Polygon"))
    (hco : (gkvs.lookup "coordinates").getD (Json.arr []) = coords)
    (hh : get_building_height properties = .ok h) :
    feature_points (.obj fkvs) = process_coordinates coords h := by
  simp only [feature_points, pyGet, hg, hp, ok_bind, Option.getD_some, pyTruthy,
    lookup_ne_nil hty, Bool.not_false, if_true, hty, hco, hh, jsonEqStr]
  simp

theorem feature_points_multipolygon (fkvs gkvs : List (String × Json))
    (properties : Json) (polys : List Json) (h : ℚ) (ls : List (List BPoint))
    (hg : fkvs.lookup "geometry" = some (Json.obj gkvs))
    (hp : (fkvs.lookup "properties").getD (Json.obj []) = properties)
    (hty : gkvs.lookup "type" = some (Json.str "MultiPolygon"))
    (hco : (gkvs.lookup "coordinates").getD (Json.arr []) = Json.arr polys)
    (hh : get_building_height properties = .ok h)
    (hall : List.Forall₂
      (fun pc l => process_coordinates (.arr [pc]) h = .ok l) polys ls) :
    feature_points (.obj fkvs) = .ok ls.flatten := by
  simp only [feature_points, pyGet, hg, hp, ok_bind, Option.getD_some, pyTruthy,
    lookup_ne_nil hty, Bool.not_false, if_true, hty, hco, hh, jsonEqStr, pyIter]
  simpa using foldlM_append_ok polys ls [] hall

theorem pyFloat_error_cases (v : Json) (e : PyErr) (h : pyFloat v = .error e) :
    e = .valueError ∨ e = .typeError := by
  cases v with
  | num q => simp [pyFloat] at h
  | bool b => simp [pyFloat] at h
  | null => simp [pyFloat] at h; simp [h]
  | arr xs => simp [pyFloat] at h; simp [h]
  | obj kvs => simp [pyFloat] at h; simp [h]
  | str s =>
    rw [pyFloat] at h
    cases hs : strToRat? s with
    | none => simp [hs] at h; simp [h]
    | some q => simp [hs] at h

theorem tryFloatKey_some (props : List (String × Json)) (k : String) (v : Json)
    (hv : props.lookup k = some v) :
    tryFloatKey (.obj props) k = .ok (pyFloat v).toOption := by
  cases hf : pyFloat v with
  | ok q => simp [tryFloatKey, pyGetKey, hv, hf, Except.toOption]
  | error e =>
    rcases pyFloat_error_cases v e hf with rfl | rfl <;>
      simp [tryFloatKey, pyGetKey, hv, hf, Except.toOption]

theorem get_building_height_obj (props : List (String × Json)) :
    get_building_height (.obj props) = .ok (heightSpec props) := by
  rw [get_building_height, heightSpec]
  cases hh : props.lookup "height" with
  | none =>
    simp only [pyContains, hh, Option.isSome_none, ok_bind, Bool.false_eq_true,
      if_false, Option.bind_none]
    cases hl : props.lookup "building:levels" with
    | none => simp [pyContains, hl]
    | some w =>
      simp only [pyContains, hl, Option.isSome_some, ok_bind, if_true,
        tryFloatKey_some props _ w hl, Option.bind_some]
      cases hf : pyFloat w with
      | ok q => simp [hf, Except.toOption]
      | error e => simp [hf, Except.toOption]
  | some v =>
    simp only [pyContains, hh, Option.isSome_some, ok_bind, if_true,
      tryFloatKey_some props _ v hh, Option.bind_some]
    cases hf : pyFloat v with
    | ok q => simp [hf, Except.toOption]
    | error e =>
      simp only [hf, Except.toOption, Option.bind_none]
      cases hl : props.lookup "building:levels" with
      | none => simp [pyContains, hl, hf]
      | some w =>
        simp only [pyContains, hl, Option.isSome_some, ok_bind, if_true,
          tryFloatKey_some props _ w hl, Option.bind_some]
        cases hg : pyFloat w with
        | ok q => simp [hg, hf, Except.toOption]
        | error e2 => simp [hg, hf, Except.toOption]

theorem filterMap_posRow_positions (pts : List Json) (h : ℚ)
    (hpos : ∀ p ∈ pts, IsPosition p) :
    (pts.filterMap (posRow h)).length = pts.length ∧
      ∀ r ∈ pts.filterMap (posRow h), r.2.2 = h := by
  induction pts with
  | nil => simp
  | cons p ps ih =>
    obtain ⟨c0, c1, rest, rfl, -⟩ := hpos p (by simp)
    have tail := ih (fun q hq => hpos q (by simp [hq]))
    refine ⟨by simp [posRow, tail.1], ?_⟩
    intro r hr
    simp only [posRow, List.filterMap_cons, List.mem_cons] at hr
    rcases hr with rfl | hr
    · rfl
    · exact tail.2 r hr

theorem isPosition_isArr {p : Json} (hp : IsPosition p) : p.isArr = true := by
  obtain ⟨c0, c1, rest, rfl, -⟩ := hp
  rfl

/-! ## Claims -/

/-- Claim C1: for every feature's attribute mapping, the derived height follows
the precedence: a present-and-numeric `height` attribute wins as a float;
otherwise a present-and-numeric `building:levels` attribute times `3.0`;
otherwise `3.0`; a present but non-numeric value falls through like a
missing one. Stated as: `get_building_height` agrees with `heightSpec`,
the word-for-word transcription of that precedence. -/
theorem claim_C1_height_precedence (props : List (String × Json)) :
    get_building_height (Json.obj props) = .ok (heightSpec props) :=
  get_building_height_obj props

/-- Claim C2 as stated is false at the concrete input `N = 0`: a feature whose
geometry is a Polygon with an empty exterior ring (zero points) does not
contribute zero rows — processing raises an uncaught `IndexError` from
`coords[0][0]`. -/
theorem claim_C2_counterexample :
    feature_points (Json.obj
      [("geometry", Json.obj [("type", Json.str "Polygon"),
        ("coordinates", Json.arr [Json.arr []])]),
       ("properties", Json.obj [])]) = .error .indexError := by
  rfl

/-- Claim C2 (amended): for every feature whose geometry is a Polygon whose
exterior ring holds `N ≥ 1` coordinate positions, processing contributes
exactly `N` rows, each carrying the feature's resolved height. -/
theorem claim_C2_polygon_rows (fkvs gkvs : List (String × Json))
    (properties p0 : Json) (ps holes : List Json) (h : ℚ)
    (hg : fkvs.lookup "geometry" = some (Json.obj gkvs))
    (hp : (fkvs.lookup "properties").getD (Json.obj []) = properties)
    (hty : gkvs.lookup "type" = some (Json.str "Polygon"))
    (hco : (gkvs.lookup "coordinates").getD (Json.arr []) =
      Json.arr (Json.arr (p0 :: ps) :: holes))
    (hpos : ∀ p ∈ p0 :: ps, IsPosition p)
    (hh : get_building_height properties = .ok h) :
    ∃ rows, feature_points (Json.obj fkvs) = .ok rows ∧
      rows.length = (p0 :: ps).length ∧ ∀ r ∈ rows, r.2.2 = h := by
  obtain ⟨c0, c1, rest, hp0, hc0⟩ := hpos p0 (by simp)
  subst hp0
  rw [feature_points_polygon fkvs gkvs properties _ h hg hp hty hco hh,
    process_coordinates_polygon c0 (c1 :: rest) ps holes h hc0
      (fun p hp => isPosition_isArr (hpos p hp))]
  exact ⟨_, rfl, filterMap_posRow_positions _ h hpos⟩

/-- Witness for C2 (amended): a concrete Polygon feature with three
positions and `height=12` yields three rows, each of height 12. -/
theorem claim_C2_witness :
    ∃ rows, feature_points (Json.obj
      [("geometry", Json.obj [("type", Json.str "Polygon"),
        ("coordinates", Json.arr [Json.arr [Json.arr [Json.num 1, Json.num 2],
          Json.arr [Json.num 3, Json.num 4], Json.arr [Json.num 5, Json.num 6]]])]),
       ("properties", Json.obj [("height", Json.num 12)])]) = .ok rows ∧
      rows.length = 3 ∧ ∀ r ∈ rows, r.2.2 = 12 := by
  exact claim_C2_polygon_rows
    [("geometry", Json.obj [("type", Json.str "Polygon"),
        ("coordinates", Json.arr [Json.arr [Json.arr [Json.num 1, Json.num 2],
          Json.arr [Json.num 3, Json.num 4], Json.arr [Json.num 5, Json.num 6]]])]),
     ("properties", Json.obj [("height", Json.num 12)])]
    [("type", Json.str "Polygon"),
     ("coordinates", Json.arr [Json.arr [Json.arr [Json.num 1, Json.num 2],
       Json.arr [Json.num 3, Json.num 4], Json.arr [Json.num 5, Json.num 6]]])]
    (Json.obj [("height", Json.num 12)])
    (Json.arr [Json.num 1, Json.num 2])
    [Json.arr [Json.num 3, Json.num 4], Json.arr [Json.num 5, Json.num 6]]
    [] 12 rfl rfl rfl rfl
    (by
      intro p hp
      simp only [List.mem_cons, List.not_mem_nil, or_false] at hp
      rcases hp with rfl | rfl | rfl
      · exact ⟨Json.num 1, Json.num 2, [], rfl, rfl⟩
      · exact ⟨Json.num 3, Json.num 4, [], rfl, rfl⟩
      · exact ⟨Json.num 5, Json.num 6, [], rfl, rfl⟩)
    rfl

/-- Claim C3 as stated is false at a concrete input: a MultiPolygon one of whose
polygons has an empty exterior ring does not contribute `sum(|Ri|) = 0`
rows — processing raises an uncaught `IndexError` from `coords[0][0]`. -/
theorem claim_C3_counterexample :
    feature_points (Json.obj
      [("geometry", Json.obj [("type", Json.str "MultiPolygon"),
        ("coordinates", Json.arr [Json.arr [Json.arr []]])]),
       ("properties", Json.obj [])]) = .error .indexError := by
  rfl

/-- Claim C3 (amended): for every feature whose geometry is a MultiPolygon each
of whose polygons has a non-empty exterior ring of coordinate positions,
processing contributes exactly the sum of the exterior-ring sizes
`|R1| + ... + |Rk|` (interior rings are not counted). -/
theorem claim_C3_multipolygon_rows (fkvs gkvs : List (String × Json))
    (properties : Json) (polys : List Json) (h : ℚ)
    (hg : fkvs.lookup "geometry" = some (Json.obj gkvs))
    (hp : (fkvs.lookup "properties").getD (Json.obj []) = properties)
    (hty : gkvs.lookup "type" = some (Json.str "MultiPolygon"))
    (hco : (gkvs.lookup "coordinates").getD (Json.arr []) = Json.arr polys)
    (hpolys : ∀ poly ∈ polys, ∃ q qs rings,
      poly = Json.arr (Json.arr (q :: qs) :: rings) ∧ ∀ p ∈ q :: qs, IsPosition p)
    (hh : get_building_height properties = .ok h) :
    ∃ rows, feature_points (Json.obj fkvs) = .ok rows ∧
      rows.length = (polys.map exteriorSize).sum := by
  have hall : List.Forall₂ (fun pc l => process_coordinates (.arr [pc]) h = .ok l)
      polys (polys.map fun poly => (exteriorPts poly).filterMap (posRow h)) := by
    rw [List.forall₂_map_right_iff, List.forall₂_same]
    intro poly hmem
    obtain ⟨q, qs, rings, rfl, hpos⟩ := hpolys poly hmem
    rw [process_coordinates_multiSingle q qs rings h
      (fun p hp => isPosition_isArr (hpos p hp))]
    rfl
  refine ⟨_, feature_points_multipolygon fkvs gkvs properties polys h _
    hg hp hty hco hh hall, ?_⟩
  rw [List.length_flatten, List.map_map]
  congr 1
  apply List.map_congr_left
  intro poly hmem
  obtain ⟨q, qs, rings, rfl, hpos⟩ := hpolys poly hmem
  simp [Function.comp, exteriorPts, exteriorSize,
    (filterMap_posRow_positions (q :: qs) h hpos).1]

/-- Witness for C3 (amended): a concrete MultiPolygon with exterior rings
of sizes 3 and 1 (the first polygon also has an interior ring) yields
exactly 4 rows. -/
theorem claim_C3_witness :
    ∃ rows, feature_points (Json.obj
      [("geometry", Json.obj [("type", Json.str "MultiPolygon"),
        ("coordinates", Json.arr
          [Json.arr [Json.arr [Json.arr [Json.num 1, Json.num 2],
              Json.arr [Json.num 3, Json.num 4], Json.arr [Json.num 5, Json.num 6]],
            Json.arr [Json.arr [Json.num 9, Json.num 9]]],
           Json.arr [Json.arr [Json.arr [Json.num 7, Json.num 8]]]])]),
       ("properties", Json.obj [])]) = .ok rows ∧ rows.length = 4 := by
  exact claim_C3_multipolygon_rows
    [("geometry", Json.obj [("type", Json.str "MultiPolygon"),
        ("coordinates", Json.arr
          [Json.arr [Json.arr [Json.arr [Json.num 1, Json.num 2],
              Json.arr [Json.num 3, Json.num 4], Json.arr [Json.num 5, Json.num 6]],
            Json.arr [Json.arr [Json.num 9, Json.num 9]]],
           Json.arr [Json.arr [Json.arr [Json.num 7, Json.num 8]]]])]),
     ("properties", Json.obj [])]
    [("type", Json.str "MultiPolygon"),
     ("coordinates", Json.arr
       [Json.arr [Json.arr [Json.arr [Json.num 1, Json.num 2],
           Json.arr [Json.num 3, Json.num 4], Json.arr [Json.num 5, Json.num 6]],
         Json.arr [Json.arr [Json.num 9, Json.num 9]]],
        Json.arr [Json.arr [Json.arr [Json.num 7, Json.num 8]]]])]
    (Json.obj [])
    [Json.arr [Json.arr [Json.arr [Json.num 1, Json.num 2],
        Json.arr [Json.num 3, Json.num 4], Json.arr [Json.num 5, Json.num 6]],
      Json.arr [Json.arr [Json.num 9, Json.num 9]]],
     Json.arr [Json.arr [Json.arr [Json.num 7, Json.num 8]]]]
    3 rfl rfl rfl rfl
    (by
      intro poly hmem
      simp only [List.mem_cons, List.not_mem_nil, or_false] at hmem
      rcases hmem with rfl | rfl
      · refine ⟨_, _, _, rfl, ?_⟩
        intro p hp
        simp only [List.mem_cons, List.not_mem_nil, or_false] at hp
        rcases hp with rfl | rfl | rfl
        · exact ⟨Json.num 1, Json.num 2, [], rfl, rfl⟩
        · exact ⟨Json.num 3, Json.num 4, [], rfl, rfl⟩
        · exact ⟨Json.num 5, Json.num 6, [], rfl, rfl⟩
      · refine ⟨_, _, _, rfl, ?_⟩
        intro p hp
        simp only [List.mem_cons, List.not_mem_nil, or_false] at hp
        rcases hp with rfl
        exact ⟨Json.num 7, Json.num 8, [], rfl, rfl⟩)
    rfl

/-- Claim C4: only the exterior (first) ring of each polygon contributes rows.
For a simple Polygon the rows are exactly those of the exterior ring — the
interior rings `holes` are universally quantified and absent from the
result — and likewise for each polygon of a MultiPolygon (`rings` past the
first contribute nothing). -/
theorem claim_C4_holes_ignored :
    (∀ (c0 : Json) (cs ps holes : List Json) (h : ℚ),
      c0.isArr = false → (∀ p ∈ Json.arr (c0 :: cs) :: ps, p.isArr = true) →
      process_coordinates (.arr (Json.arr (Json.arr (c0 :: cs) :: ps) :: holes)) h =
        .ok ((Json.arr (c0 :: cs) :: ps).filterMap (posRow h))) ∧
    (∀ (q : Json) (qs rings : List Json) (h : ℚ),
      (∀ p ∈ q :: qs, p.isArr = true) →
      process_coordinates (.arr [Json.arr (Json.arr (q :: qs) :: rings)]) h =
        .ok ((q :: qs).filterMap (posRow h))) :=
  ⟨fun c0 cs ps holes h hc hall =>
      process_coordinates_polygon c0 cs ps holes h hc hall,
   fun q qs rings h hall => process_coordinates_multiSingle q qs rings h hall⟩

/-- Witness for C4: a Polygon whose coordinate array carries a two-point
interior ring, and a MultiPolygon polygon with an interior ring, both
yield only the single exterior-ring row. -/
theorem claim_C4_witness :
    process_coordinates (Json.arr [Json.arr [Json.arr [Json.num 1, Json.num 2]],
        Json.arr [Json.arr [Json.num 9, Json.num 9],
          Json.arr [Json.num 8, Json.num 8]]]) 5 =
      .ok [(Json.num 1, Json.num 2, 5)] ∧
    process_coordinates (Json.arr [Json.arr [Json.arr [Json.arr [Json.num 1, Json.num 2]],
        Json.arr [Json.arr [Json.num 9, Json.num 9]]]]) 5 =
      .ok [(Json.num 1, Json.num 2, 5)] := by
  constructor
  · exact claim_C4_holes_ignored.1 (Json.num 1) [Json.num 2] []
      [Json.arr [Json.arr [Json.num 9, Json.num 9], Json.arr [Json.num 8, Json.num 8]]]
      5 rfl
      (by
        intro p hp
        simp only [List.mem_cons, List.not_mem_nil, or_false] at hp
        subst hp
        rfl)
  · exact claim_C4_holes_ignored.2 (Json.arr [Json.num 1, Json.num 2]) []
      [Json.arr [Json.arr [Json.num 9, Json.num 9]]] 5
      (by
        intro p hp
        simp only [List.mem_cons, List.not_mem_nil, or_false] at hp
        subst hp
        rfl)

/-- Claim C5: a feature whose geometry's type tag is neither `"Polygon"` nor
`"MultiPolygon"` contributes zero rows, whatever its other attributes. -/
theorem claim_C5_nonpolygon_zero_rows (fkvs gkvs : List (String × Json)) (t : Json)
    (hg : fkvs.lookup "geometry" = some (Json.obj gkvs))
    (hty : gkvs.lookup "type" = some t)
    (h1 : jsonEqStr t "Polygon" = false)
    (h2 : jsonEqStr t "MultiPolygon" = false) :
    feature_points (Json.obj fkvs) = .ok [] := by
  simp only [feature_points, pyGet, hg, ok_bind, Option.getD_some, pyTruthy,
    lookup_ne_nil hty, Bool.not_false, if_true, hty, h1, h2]
  simp

/-- Witness for C5: a Point feature with a height attribute contributes
zero rows. -/
theorem claim_C5_witness :
    feature_points (Json.obj
      [("geometry", Json.obj [("type", Json.str "Point"),
        ("coordinates", Json.arr [Json.num 1, Json.num 2])]),
       ("properties", Json.obj [("height", Json.num 99)])]) = .ok [] :=
  claim_C5_nonpolygon_zero_rows
    [("geometry", Json.obj [("type", Json.str "Point"),
        ("coordinates", Json.arr [Json.num 1, Json.num 2])]),
     ("properties", Json.obj [("height", Json.num 99)])]
    [("type", Json.str "Point"), ("coordinates", Json.arr [Json.num 1, Json.num 2])]
    (Json.str "Point") rfl rfl rfl rfl

theorem process_geojson_points_features (fkvs : List (String × Json))
    (fs : List Json) (ls : List (List BPoint))
    (hf : fkvs.lookup "features" = some (Json.arr fs))
    (hall : List.Forall₂ (fun f l => feature_points f = .ok l) fs ls) :
    process_geojson_points (Json.obj fkvs) = .ok ls.flatten := by
  simp only [process_geojson_points, pyGet, hf, ok_bind, Option.getD_some, pyIter]
  simpa using foldlM_append_ok fs ls [] hall

/-- Claim C6: the output sequence is ordered by input feature order (the
collected list is the in-order concatenation of the per-feature lists),
within a feature by ring-point order (the ring's rows are its points'
rows in ring order), and for MultiPolygons by polygon order then point
order (the in-order concatenation of the per-polygon lists). Rows are
pure tuple values, immutable by construction. -/
theorem claim_C6_ordering :
    (∀ (fkvs : List (String × Json)) (fs : List Json) (ls : List (List BPoint)),
      fkvs.lookup "features" = some (Json.arr fs) →
      List.Forall₂ (fun f l => feature_points f = .ok l) fs ls →
      process_geojson_points (Json.obj fkvs) = .ok ls.flatten) ∧
    (∀ (ring : List Json) (h : ℚ), (∀ p ∈ ring, p.isArr = true) →
      emitRing (Json.arr ring) h [] = .ok (ring.filterMap (posRow h))) ∧
    (∀ (fkvs gkvs : List (String × Json)) (properties : Json)
      (polys : List Json) (h : ℚ) (ls : List (List BPoint)),
      fkvs.lookup "geometry" = some (Json.obj gkvs) →
      (fkvs.lookup "properties").getD (Json.obj []) = properties →
      gkvs.lookup "type" = some (Json.str "MultiPolygon") →
      (gkvs.lookup "coordinates").getD (Json.arr []) = Json.arr polys →
      get_building_height properties = .ok h →
      List.Forall₂ (fun pc l => process_coordinates (.arr [pc]) h = .ok l) polys ls →
      feature_points (Json.obj fkvs) = .ok ls.flatten) :=
  ⟨process_geojson_points_features,
   fun ring h hall => by simpa using emitRing_arr ring h [] hall,
   fun fkvs gkvs properties polys h ls hg hp hty hco hh hall =>
     feature_points_multipolygon fkvs gkvs properties polys h ls hg hp hty hco hh hall⟩

/-- Witness for C6: two Polygon features in order contribute their rows in
feature order. -/
theorem claim_C6_witness :
    process_geojson_points (Json.obj [("features", Json.arr
      [Json.obj [("geometry", Json.obj [("type", Json.str "Polygon"),
          ("coordinates", Json.arr [Json.arr [Json.arr [Json.num 1, Json.num 2]]])]),
        ("properties", Json.obj [])],
       Json.obj [("geometry", Json.obj [("type", Json.str "Polygon"),
          ("coordinates", Json.arr [Json.arr [Json.arr [Json.num 3, Json.num 4]]])]),
        ("properties", Json.obj [("height", Json.num 7)])]]) ]) =
      .ok [(Json.num 1, Json.num 2, 3), (Json.num 3, Json.num 4, 7)] :=
  claim_C6_ordering.1
    [("features", Json.arr
      [Json.obj [("geometry", Json.obj [("type", Json.str "Polygon"),
          ("coordinates", Json.arr [Json.arr [Json.arr [Json.num 1, Json.num 2]]])]),
        ("properties", Json.obj [])],
       Json.obj [("geometry", Json.obj [("type", Json.str "Polygon"),
          ("coordinates", Json.arr [Json.arr [Json.arr [Json.num 3, Json.num 4]]])]),
        ("properties", Json.obj [("height", Json.num 7)])]])]
    [Json.obj [("geometry", Json.obj [("type", Json.str "Polygon"),
        ("coordinates", Json.arr [Json.arr [Json.arr [Json.num 1, Json.num 2]]])]),
      ("properties", Json.obj [])],
     Json.obj [("geometry", Json.obj [("type", Json.str "Polygon"),
        ("coordinates", Json.arr [Json.arr [Json.arr [Json.num 3, Json.num 4]]])]),
      ("properties", Json.obj [("height", Json.num 7)])]]
    [[(Json.num 1, Json.num 2, 3)], [(Json.num 3, Json.num 4, 7)]]
    rfl
    (List.Forall₂.cons rfl (List.Forall₂.cons rfl List.Forall₂.nil))

/-- Claim C7: a missing geometry mapping means the feature contributes zero rows,
and a missing properties mapping defaults to the empty mapping, so the
default height rules apply (height 3.0); neither is an error. -/
theorem claim_C7_missing_defaults :
    (∀ fkvs : List (String × Json), fkvs.lookup "geometry" = none →
      feature_points (Json.obj fkvs) = .ok []) ∧
    get_building_height (Json.obj []) = .ok 3 ∧
    (∀ (fkvs gkvs : List (String × Json)) (p0 : Json) (ps holes : List Json),
      fkvs.lookup "properties" = none →
      fkvs.lookup "geometry" = some (Json.obj gkvs) →
      gkvs.lookup "type" = some (Json.str "Polygon") →
      (gkvs.lookup "coordinates").getD (Json.arr []) =
        Json.arr (Json.arr (p0 :: ps) :: holes) →
      (∀ p ∈ p0 :: ps, IsPosition p) →
      ∃ rows, feature_points (Json.obj fkvs) = .ok rows ∧
        ∀ r ∈ rows, r.2.2 = 3) := by
  refine ⟨?_, rfl, ?_⟩
  · intro fkvs hg
    simp [feature_points, pyGet, hg, pyTruthy]
  · intro fkvs gkvs p0 ps holes hprop hg hty hco hpos
    have hp : (fkvs.lookup "properties").getD (Json.obj []) = Json.obj [] := by
      rw [hprop]
      rfl
    obtain ⟨c0, c1, rest, hp0, hc0⟩ := hpos p0 (by simp)
    subst hp0
    rw [feature_points_polygon fkvs gkvs (Json.obj []) _ 3 hg hp hty hco rfl,
      process_coordinates_polygon c0 (c1 :: rest) ps holes 3 hc0
        (fun p hpm => isPosition_isArr (hpos p hpm))]
    exact ⟨_, rfl, (filterMap_posRow_positions _ 3 hpos).2⟩

/-- Witness for C7: a feature with no geometry key contributes zero rows,
and a Polygon feature with no properties key yields rows of height 3. -/
theorem claim_C7_witness :
    feature_points (Json.obj [("properties", Json.obj [])]) = .ok [] ∧
    ∃ rows, feature_points (Json.obj [("geometry", Json.obj
      [("type", Json.str "Polygon"),
       ("coordinates", Json.arr [Json.arr [Json.arr [Json.num 1, Json.num 2]]])])]) =
      .ok rows ∧ ∀ r ∈ rows, r.2.2 = 3 := by
  constructor
  · exact claim_C7_missing_defaults.1 [("properties", Json.obj [])] rfl
  · exact claim_C7_missing_defaults.2.2
      [("geometry", Json.obj [("type", Json.str "Polygon"),
        ("coordinates", Json.arr [Json.arr [Json.arr [Json.num 1, Json.num 2]]])])]
      [("type", Json.str "Polygon"),
       ("coordinates", Json.arr [Json.arr [Json.arr [Json.num 1, Json.num 2]]])]
      (Json.arr [Json.num 1, Json.num 2]) [] [] rfl rfl rfl rfl
      (by
        intro p hp
        simp only [List.mem_cons, List.not_mem_nil, or_false] at hp
        subst hp
        exact ⟨Json.num 1, Json.num 2, [], rfl, rfl⟩)

/-- Claim C8: with a non-empty point set and an image path, when 3-D support is
present but the 3-D renderer fails, the failure is caught and downgraded to
the 2-D renderer, and `process_geojson` still returns normally with its
usual CSV rows and point count. -/
theorem claim_C8_plot_fallback (doc : Json) (pts : List BPoint)
    (hpts : process_geojson_points doc = .ok pts) (hne : pts ≠ []) :
    process_geojson doc true true true =
      .ok (write_csv pts, PlotResult.plot2d, pts.length) := by
  have hE : pts.isEmpty = false := by
    cases pts with
    | nil => exact absurd rfl hne
    | cons a l => rfl
  simp [process_geojson, hpts, plotting_step, hE]

/-- Witness for C8: a one-point run with image output and a failing 3-D
renderer ends in the 2-D fallback and returns 1. -/
theorem claim_C8_witness :
    process_geojson (Json.obj [("features", Json.arr
      [Json.obj [("geometry", Json.obj [("type", Json.str "Polygon"),
          ("coordinates", Json.arr [Json.arr [Json.arr [Json.num 1, Json.num 2]]])]),
        ("properties", Json.obj [])]])]) true true true =
      .ok (write_csv [(Json.num 1, Json.num 2, 3)], PlotResult.plot2d, 1) :=
  claim_C8_plot_fallback
    (Json.obj [("features", Json.arr
      [Json.obj [("geometry", Json.obj [("type", Json.str "Polygon"),
          ("coordinates", Json.arr [Json.arr [Json.arr [Json.num 1, Json.num 2]]])]),
        ("properties", Json.obj [])]])])
    [(Json.num 1, Json.num 2, 3)] rfl (List.cons_ne_nil _ _)

/-- Claim C9: `process_geojson` returns the number of collected points, which
equals the number of data rows written after the single header row; the
header row is present even for zero points. -/
theorem claim_C9_return_counts (doc : Json) (pts : List BPoint)
    (imgGiven has3d plot3dFails : Bool)
    (hpts : process_geojson_points doc = .ok pts) :
    ∃ plot, process_geojson doc imgGiven has3d plot3dFails =
      .ok (CsvRow.header :: pts.map CsvRow.data, plot, pts.length) ∧
      (CsvRow.header :: pts.map CsvRow.data).countP CsvRow.isData = pts.length ∧
      (CsvRow.header :: pts.map CsvRow.data).head? = some CsvRow.header := by
  refine ⟨plotting_step pts imgGiven has3d plot3dFails, ?_, ?_, rfl⟩
  · simp [process_geojson, hpts, write_csv]
  · rw [List.countP_cons, List.countP_map]
    simp [CsvRow.isData, Function.comp, List.countP_true]

/-- Witness for C9: an empty document collects zero points, returns 0, and
still writes the lone header row. -/
theorem claim_C9_witness :
    ∃ plot, process_geojson (Json.obj [("features", Json.arr [])]) false false false =
      .ok (CsvRow.header :: List.map CsvRow.data [], plot, (0 : Nat)) ∧
      (CsvRow.header :: List.map CsvRow.data []).countP CsvRow.isData = 0 ∧
      (CsvRow.header :: List.map CsvRow.data []).head? = some CsvRow.header := by
  exact claim_C9_return_counts (Json.obj [("features", Json.arr [])]) []
    false false false rfl

/-- Claim C10: a ring entry that is a list of fewer than 2 coordinates is
silently skipped (contributing no row and raising no error), and an entry
with 2 or more coordinates contributes exactly one row built from its
first two coordinates. -/
theorem claim_C10_point_arity (h : ℚ) (acc : List BPoint) :
    (∀ cs : List Json, cs.length < 2 → emitPoint h acc (Json.arr cs) = .ok acc) ∧
    (∀ (c0 c1 : Json) (rest : List Json),
      emitPoint h acc (Json.arr (c0 :: c1 :: rest)) = .ok (acc ++ [(c0, c1, h)])) := by
  constructor
  · intro cs hlen
    cases cs with
    | nil => simp [emitPoint, pyLen]
    | cons c cs' =>
      cases cs' with
      | nil => simp [emitPoint, pyLen]
      | cons c2 cs'' =>
        simp only [List.length_cons] at hlen
        omega
  · intro c0 c1 rest
    rw [emitPoint_arr]
    simp [posRow]

/-- Witness for C10: a one-coordinate entry is skipped without error; a
three-coordinate entry contributes one row from its first two
coordinates. -/
theorem claim_C10_witness :
    emitPoint 5 [] (Json.arr [Json.num 1]) = .ok [] ∧
    emitPoint 5 [] (Json.arr [Json.num 1, Json.num 2, Json.num 7]) =
      .ok [(Json.num 1, Json.num 2, 5)] := by
  constructor
  · exact (claim_C10_point_arity 5 []).1 [Json.num 1] (by simp)
  · exact (claim_C10_point_arity 5 []).2 (Json.num 1) (Json.num 2) [Json.num 7]

end UrbanRay3D
